import Mathlib

/-!
Verification development for the Monumator inventory-confirmation scraping core.

The definitions below are a shallow embedding of the Python sources:

- src/web_automation/inventory_confirmation_scraper.py
  (route discovery scan, per-route asset extraction, per-route error handling)
- src/web_automation/seed_browser.py (SeedBrowser.login, navigate_to_route_summary)
- src/excel_processing/inventory_confirmation_excel.py (generate_report flattening)
- src/report_workflows/inventory_confirmation.py and
  src/report_workflows/daily/inventory_confirmation.py (run_inventory_confirmation_async)

Browser interaction is abstracted into explicit environment records holding the
cell texts the page would yield and the success or failure of each portal step;
the Python control flow over those values is translated directly.
-/

namespace Monumator

/-! String primitives mirroring the Python string methods used by the sources.
They are defined over the character list of the string so that they reduce by
kernel evaluation. -/

/-- Substring test on character lists: does some suffix of the haystack start
with the pattern. Mirrors the semantics of the Python expression pat in hay. -/
def charsContain (hay pat : List Char) : Bool :=
  (List.range (hay.length + 1)).any (fun i => pat.isPrefixOf (hay.drop i))

/-- Python substring containment: pat in hay. -/
def strContains (hay pat : String) : Bool :=
  charsContain hay.data pat.data

/-- Python str.strip restricted to ASCII whitespace: remove leading and
trailing whitespace characters. -/
def pyStrip (s : String) : String :=
  ⟨((s.data.dropWhile Char.isWhitespace).reverse.dropWhile Char.isWhitespace).reverse⟩

/-- Python str.upper on the basic latin range (the sources only compare ASCII
keywords such as FF and STATIC). -/
def pyUpper (s : String) : String :=
  ⟨s.data.map Char.toUpper⟩

/-- Python str.lower on the basic latin range. -/
def pyLower (s : String) : String :=
  ⟨s.data.map Char.toLower⟩

/-- Python str.startswith. -/
def pyStartsWith (s pre : String) : Bool :=
  pre.data.isPrefixOf s.data

/-- Python str.isdigit restricted to the decimal digits 0-9: true when the
string is nonempty and every character is a digit. -/
def pyIsDigit (s : String) : Bool :=
  !s.data.isEmpty && s.data.all Char.isDigit

/-- Value of int(s) for a digit-only string s. -/
def digitsToNat (s : String) : Nat :=
  s.data.foldl (fun n c => n * 10 + (c.toNat - 48)) 0

/-- Combined parse used by the discovery scan: int(s) guarded by s.isdigit(),
so a blank or non-digit cell yields no integer at all. -/
def parseCount (s : String) : Option Nat :=
  if pyIsDigit s then some (digitsToNat s) else none

/-! Route discovery scan, from
InventoryConfirmationScraper.get_incomplete_routes in
src/web_automation/inventory_confirmation_scraper.py, lines 40-71.
A table row is the list of the text contents of its td cells. -/

/-- Selection made for one scanned summary-table row: the code reads column 1
as the route name and column 4 as the missing-inventory count (rows with fewer
than five cells are skipped), keeps only names starting with Rt, parses the
count with an isdigit guard defaulting to 0, and selects counts above zero. -/
def routeFromRow (cells : List String) : Option (String × Nat) :=
  if 5 ≤ cells.length then
    let route_name := pyStrip (cells.getD 1 "")
    let missing_text := pyStrip (cells.getD 4 "")
    if pyStartsWith route_name "Rt" then
      let missing_count := if pyIsDigit missing_text then digitsToNat missing_text else 0
      if 0 < missing_count then some (route_name, missing_count) else none
    else none
  else none

/-- Discovery scan over the whole summary table: the code iterates
range(6, len(rows)), so the first six rows are skipped, and collects the
selected (route_name, missing_count) pairs in table order. -/
def routesWithMissing (rows : List (List String)) : List (String × Nat) :=
  (rows.drop 6).filterMap routeFromRow

/-! Asset extraction on a route detail page, from
InventoryConfirmationScraper.get_incomplete_routes, lines 104-121. -/

/-- Exclusion keyword list of the scraper:
['FF', 'STATIC', 'COFFEE', 'CONDIMENTS']. -/
def EXCLUDE_KEYWORDS : List String :=
  ["FF", "STATIC", "COFFEE", "CONDIMENTS"]

/-- Status test of line 116 on the already lowercased status text:
'missing' in status or 'incomplete' in status or 'not done' in status. -/
def statusMatches (status : String) : Bool :=
  strContains status "missing" || strContains status "incomplete" ||
    strContains status "not done"

/-- Asset record appended to route_info['incomplete_assets']: exactly the
three keys the scraper stores. -/
structure ScrapedAsset where
  asset_id : String
  location : String
  status : String
deriving DecidableEq, Repr

/-- Processing of one detail-table row, lines 108-121: rows with fewer than
three cells are skipped; the asset id is cell 0 stripped and uppercased, the
location cell 1 stripped, the status cell 2 stripped and lowercased; the row
is kept when the id contains no exclusion keyword and the status text passes
the free-text check. -/
def extractAssetRow (cells : List String) : Option ScrapedAsset :=
  if 3 ≤ cells.length then
    let asset_id := pyUpper (pyStrip (cells.getD 0 ""))
    let location := pyStrip (cells.getD 1 "")
    let status := pyLower (pyStrip (cells.getD 2 ""))
    if !(EXCLUDE_KEYWORDS.any (fun x => strContains asset_id x)) then
      if statusMatches status then some ⟨asset_id, location, status⟩ else none
    else none
  else none

/-- Extraction over the detail table: asset_rows[1:] skips the header row. -/
def extractAssets (rows : List (List String)) : List ScrapedAsset :=
  (rows.drop 1).filterMap extractAssetRow

/-! Per-route processing, lines 76-135. The behaviour of the portal while one
route is processed is abstracted into an environment value: either no
clickable link is found, or some call raises before any asset row is read
(for example the click or the detail-page navigation), or the detail page
yields its rows and the final go_back call either succeeds or raises. -/

/-- Abstract behaviour of the portal for one route. -/
inductive RouteEnv where
  | noLink
  | failBefore
  | detailPage (rows : List (List String)) (goBackOk : Bool)
deriving DecidableEq, Repr

/-- Route dictionary built by the loop body, with the keys the code sets. -/
structure RouteInfo where
  route : String
  date : String
  status : String
  missing_count : Nat
  incomplete_assets : List ScrapedAsset
deriving DecidableEq, Repr

/-- Processing of one selected route: route_info starts with status
Incomplete and an empty asset list; a missing link sets status No Link Found;
an exception anywhere in the try block sets status Error, keeping whatever
assets were appended before the raising call (none when the failure precedes
the extraction loop, all of them when only the final go_back raises). -/
def processRoute (detail : String → RouteEnv) (target_date : String)
    (p : String × Nat) : RouteInfo :=
  match detail p.1 with
  | RouteEnv.noLink => ⟨p.1, target_date, "No Link Found", p.2, []⟩
  | RouteEnv.failBefore => ⟨p.1, target_date, "Error", p.2, []⟩
  | RouteEnv.detailPage rows goBackOk =>
    ⟨p.1, target_date, if goBackOk then "Incomplete" else "Error", p.2,
      extractAssets rows⟩

/-- Abstract behaviour of the portal for a whole discovery run. -/
structure ScrapeEnv where
  navOk : Bool
  summaryRows : List (List String)
  detail : String → RouteEnv

/-- Whole get_incomplete_routes call: raises when navigate_to_route_summary
reports failure, otherwise scans the summary table and processes each
selected route in order, appending one route_info per route. -/
def getIncompleteRoutes (env : ScrapeEnv) (target_date : String) :
    Except String (List RouteInfo) :=
  if env.navOk = false then Except.error "Failed to navigate to routes summary"
  else Except.ok
    ((routesWithMissing env.summaryRows).map (processRoute env.detail target_date))

/-! Excel flattening, from InventoryConfirmationProcessor.generate_report in
src/excel_processing/inventory_confirmation_excel.py, lines 38-48. -/

/-- Row written to the report sheet. The scraper asset dictionaries carry no
type, restock_time or inventory_taken keys, so the asset.get defaults fill
those columns: empty strings and the YES/NO placeholder. -/
structure OutRec where
  asset_id : String
  location : String
  assetType : String
  restock_time : String
  inventory_taken : String
deriving DecidableEq, Repr

/-- Flattening of the route data into the all_assets list written to the
sheet: every incomplete asset of every route, in order, with no further
filtering. -/
def excelAllAssets (route_data : List RouteInfo) : List OutRec :=
  route_data.flatMap (fun r =>
    r.incomplete_assets.map (fun a => ⟨a.asset_id, a.location, "", "", "YES/NO"⟩))

/-! Target-date computation, from
InventoryConfirmationScraper.get_previous_business_day in
src/web_automation/inventory_confirmation_scraper.py, lines 15-20. The clock
value datetime.now() is passed in as an explicit calendar date; subtraction of
a timedelta and strftime are modelled with proleptic Gregorian arithmetic. -/

/-- Calendar date. -/
structure Date where
  year : Nat
  month : Nat
  day : Nat
deriving DecidableEq, Repr

/-- Gregorian leap-year rule. -/
def isLeapYear (y : Nat) : Bool :=
  (y % 4 == 0 && y % 100 != 0) || y % 400 == 0

/-- Length of a month. -/
def daysInMonth (y m : Nat) : Nat :=
  if m = 2 then (if isLeapYear y then 29 else 28)
  else if m = 4 ∨ m = 6 ∨ m = 9 ∨ m = 11 then 30
  else 31

/-- Previous calendar day. -/
def prevDate (dt : Date) : Date :=
  if 1 < dt.day then ⟨dt.year, dt.month, dt.day - 1⟩
  else if 1 < dt.month then ⟨dt.year, dt.month - 1, daysInMonth dt.year (dt.month - 1)⟩
  else ⟨dt.year - 1, 12, 31⟩

/-- Subtraction of a timedelta of n days. -/
def subDays : Date → Nat → Date
  | dt, 0 => dt
  | dt, n + 1 => subDays (prevDate dt) n

/-- Weekday with Monday = 0, as returned by datetime.weekday, computed with
Zeller's congruence (h = 0 is Saturday, shifted by 5). -/
def pyWeekday (dt : Date) : Nat :=
  let y := if dt.month ≤ 2 then dt.year - 1 else dt.year
  let m := if dt.month ≤ 2 then dt.month + 12 else dt.month
  let k := y % 100
  let j := y / 100
  let h := (dt.day + (13 * (m + 1)) / 5 + k + k / 4 + j / 4 + 5 * j) % 7
  (h + 5) % 7

/-- Decimal digits of n, most significant first, with explicit fuel (ten
digits cover every calendar field used here). -/
def natToStrAux : Nat → Nat → List Char
  | 0, _ => []
  | fuel + 1, n =>
    if n = 0 then [] else natToStrAux fuel (n / 10) ++ [Char.ofNat (48 + n % 10)]

/-- Decimal rendering of a natural number. -/
def natToStr (n : Nat) : String :=
  if n = 0 then "0" else ⟨natToStrAux 10 n⟩

/-- Zero-padded two-digit field of strftime. -/
def pad2 (n : Nat) : String :=
  if n < 10 then "0" ++ natToStr n else natToStr n

/-- Zero-padded four-digit year field of strftime. -/
def pad4 (n : Nat) : String :=
  if n < 10 then "000" ++ natToStr n
  else if n < 100 then "00" ++ natToStr n
  else if n < 1000 then "0" ++ natToStr n
  else natToStr n

/-- strftime with format %Y-%m-%d. -/
def fmtDate (dt : Date) : String :=
  pad4 dt.year ++ "-" ++ pad2 dt.month ++ "-" ++ pad2 dt.day

/-- get_previous_business_day: days_back is 3 on a Monday (weekday 0) and 1
otherwise, and the target date is today minus that many days, formatted
YYYY-MM-DD. -/
def get_previous_business_day (today : Date) : String :=
  let days_back := if pyWeekday today = 0 then 3 else 1
  fmtDate (subDays today days_back)

/-! Login flow, from SeedBrowser.login in src/web_automation/seed_browser.py,
lines 40-96. The browser is abstracted into the observations the code makes:
whether the initial navigation raises, whether the wait for the password field
finds a login form before its timeout, whether any of the fill-and-click calls
raises, and the current URL read after the fixed eight-second sleep. -/

/-- Abstract environment of one login attempt. -/
structure LoginEnv where
  navFails : Bool
  formAppears : Bool
  submitFails : Bool
  urlAfterLogin : String
deriving DecidableEq, Repr

/-- URL check of lines 81-87: mycantaloupe.com in current_url and login not
in current_url.lower(). -/
def urlIndicatesLoggedIn (u : String) : Bool :=
  strContains u "mycantaloupe.com" && !(strContains (pyLower u) "login")

/-- Fixed post-submit wait of line 78, time.sleep(8): a constant duration,
not a condition-based wait. -/
def LOGIN_SLEEP_SECONDS : Nat := 8

/-- SeedBrowser.login. The result type is Except to record that the function
catches every exception of its own flow: a timeout waiting for the login form
is treated as already-logged-in success (return True), a failed URL check and
any raising call return False, and no path raises an authentication error. -/
def seedLogin (env : LoginEnv) : Except String Bool :=
  if env.navFails then Except.ok false
  else if !env.formAppears then Except.ok true
  else if env.submitFails then Except.ok false
  else if urlIndicatesLoggedIn env.urlAfterLogin then Except.ok true
  else Except.ok false

/-- Summary URL built by navigate_to_route_summary, line 110: the cluster
path segment cs4 is a hardcoded literal in the format string, so the URL is a
function of the target date alone. -/
def routesSummaryUrl (target_date : String) : String :=
  "https://mycantaloupe.com/cs4/Reports/RoutesSummary?date=" ++ target_date

/-! Top-level workflow, from run_inventory_confirmation_async in
src/report_workflows/inventory_confirmation.py, lines 18-79, and its daily
variant in src/report_workflows/daily/inventory_confirmation.py, lines 15-68.
Each step of the try block either returns a value or raises; a raised
exception is either an ordinary Exception, caught by the except clause, or a
KeyboardInterrupt, which the except Exception clause does not catch. The
first step is the constructor call InventoryConfirmationScraper(headless=...)
itself: it is fallible, and in the staged sources it always raises TypeError,
because the class inherits the Selenium SeedBrowser.__init__ that requires a
driver argument and accepts no headless keyword (that class also has no
cleanup_browser method, so the cleanup call of the finally clause is
unreachable in the staged code). When the constructor raises, the local
variable scraper is still None, and the guard if scraper of the finally
clause skips the cleanup call; only after a successful construction is
scraper bound, making the finally clause invoke scraper.cleanup_browser. -/

/-- Python exception kinds relevant to the except clause. -/
inductive PyExc where
  | exc (msg : String)
  | interrupt
deriving DecidableEq, Repr

/-- Result of one awaited step. -/
inductive StepOut (α : Type) where
  | ok (a : α)
  | raised (e : PyExc)

/-- Environment of one workflow run: the outcomes of the scraper
construction, setup_and_login, get_incomplete_routes and the Excel
generation call. -/
structure WorkflowEnv where
  construct : StepOut Unit
  setupLogin : StepOut Bool
  scrape : StepOut (List RouteInfo)
  excel : StepOut String

/-- Value returned by the workflow coroutine. -/
inductive RunRet where
  | successDict (excel_file : String) (routes_found assets_processed : Nat)
  | failureDict (error : String)
  | noneRet
deriving DecidableEq, Repr

/-- How the coroutine finishes: a returned value, or a propagating
KeyboardInterrupt. -/
inductive RunOutcome where
  | returned (v : RunRet)
  | raisedInterrupt
deriving DecidableEq, Repr

/-- Observable events of a run, used to count cleanup invocations. -/
inductive WEvent where
  | stepRun
  | cleanupCall
deriving DecidableEq, Repr

/-- Body of the try block, lines 31-68: the constructor call runs first and
its failure leaves scraper unbound; then login failure and an empty route
list are turned into raised Exceptions; on success the result dictionary
carries the Excel path and routes_found, and assets_processed sums the
absent assets_processed keys of the route dictionaries, hence 0. The second
component lists the steps that ran, and the third records whether scraper
was bound, which is what the finally clause guard if scraper tests. -/
def tryBodyEvents (env : WorkflowEnv) : StepOut RunRet × List WEvent × Bool :=
  match env.construct with
  | StepOut.raised e => (StepOut.raised e, [WEvent.stepRun], false)
  | StepOut.ok _ =>
    match env.setupLogin with
    | StepOut.raised e => (StepOut.raised e, [WEvent.stepRun, WEvent.stepRun], true)
    | StepOut.ok ok =>
      if !ok then
        (StepOut.raised (PyExc.exc "Failed to setup browser and login to SEED"),
          [WEvent.stepRun, WEvent.stepRun], true)
      else
        match env.scrape with
        | StepOut.raised e =>
          (StepOut.raised e, [WEvent.stepRun, WEvent.stepRun, WEvent.stepRun], true)
        | StepOut.ok route_data =>
          if route_data.isEmpty then
            (StepOut.raised (PyExc.exc "No route data found"),
              [WEvent.stepRun, WEvent.stepRun, WEvent.stepRun], true)
          else
            match env.excel with
            | StepOut.raised e =>
              (StepOut.raised e,
                [WEvent.stepRun, WEvent.stepRun, WEvent.stepRun, WEvent.stepRun], true)
            | StepOut.ok f =>
              (StepOut.ok (RunRet.successDict f route_data.length 0),
                [WEvent.stepRun, WEvent.stepRun, WEvent.stepRun, WEvent.stepRun], true)

/-- run_inventory_confirmation_async: the except Exception clause converts an
ordinary exception into the failure dictionary, a KeyboardInterrupt
propagates, and the finally clause invokes the cleanup exactly once when
scraper was bound by a successful construction and not at all otherwise,
because of the if scraper guard. -/
def runWorkflow (env : WorkflowEnv) : RunOutcome × List WEvent :=
  let body := tryBodyEvents env
  let evAll := body.2.1 ++ (if body.2.2 then [WEvent.cleanupCall] else [])
  (match body.1 with
    | StepOut.ok d => RunOutcome.returned d
    | StepOut.raised (PyExc.exc m) => RunOutcome.returned (RunRet.failureDict m)
    | StepOut.raised PyExc.interrupt => RunOutcome.raisedInterrupt,
    evAll)

/-- Daily-variant body: identical control flow up to the Excel call, but the
success path executes a bare return, so the coroutine returns None. -/
def tryBodyEventsDaily (env : WorkflowEnv) : StepOut RunRet × List WEvent × Bool :=
  match env.construct with
  | StepOut.raised e => (StepOut.raised e, [WEvent.stepRun], false)
  | StepOut.ok _ =>
    match env.setupLogin with
    | StepOut.raised e => (StepOut.raised e, [WEvent.stepRun, WEvent.stepRun], true)
    | StepOut.ok ok =>
      if !ok then
        (StepOut.raised (PyExc.exc "Failed to setup browser and login to SEED"),
          [WEvent.stepRun, WEvent.stepRun], true)
      else
        match env.scrape with
        | StepOut.raised e =>
          (StepOut.raised e, [WEvent.stepRun, WEvent.stepRun, WEvent.stepRun], true)
        | StepOut.ok route_data =>
          if route_data.isEmpty then
            (StepOut.raised (PyExc.exc "No route data found"),
              [WEvent.stepRun, WEvent.stepRun, WEvent.stepRun], true)
          else
            match env.excel with
            | StepOut.raised e =>
              (StepOut.raised e,
                [WEvent.stepRun, WEvent.stepRun, WEvent.stepRun, WEvent.stepRun], true)
            | StepOut.ok _ =>
              (StepOut.ok RunRet.noneRet,
                [WEvent.stepRun, WEvent.stepRun, WEvent.stepRun, WEvent.stepRun], true)

/-- Daily run_inventory_confirmation_async, with the same except and guarded
finally structure as the other variant. -/
def runDailyWorkflow (env : WorkflowEnv) : RunOutcome × List WEvent :=
  let body := tryBodyEventsDaily env
  let evAll := body.2.1 ++ (if body.2.2 then [WEvent.cleanupCall] else [])
  (match body.1 with
    | StepOut.ok d => RunOutcome.returned d
    | StepOut.raised (PyExc.exc m) => RunOutcome.returned (RunRet.failureDict m)
    | StepOut.raised PyExc.interrupt => RunOutcome.raisedInterrupt,
    evAll)

/-! Claim-side comparison definitions and concrete environments used by the
theorems below. -/

/-- Case-insensitive substring containment, the comparison named by the
specification for the exclusion filter. -/
def ciContains (hay pat : String) : Bool :=
  strContains (pyUpper hay) (pyUpper pat)

/-- Exclusion predicate following the specification wording: the combined
identifier plus type text contains some exclusion keyword, case-insensitively.
Stated over the two texts so it can be compared with the code-side check. -/
def specExcludedCombined (idText typeText : String) : Bool :=
  EXCLUDE_KEYWORDS.any (fun k => ciContains (idText ++ typeText) k)

/-- Summary table with one selected route, used by the run of claim C4: six
leading rows, then Rt 1 with a missing count of 2. -/
def c4Summary : List (List String) :=
  [[], [], [], [], [], [], ["", "Rt 1", "", "", "2"]]

/-- Detail behaviour where the asset table is read successfully and only the
final go_back call raises. -/
def c4Detail : String → RouteEnv :=
  fun _ =>
    RouteEnv.detailPage [["Asset", "Location", "Status"], ["A-1", "Lobby", "Missing"]] false

/-- Environment of the C4 counterexample run. -/
def c4Env : ScrapeEnv := ⟨true, c4Summary, c4Detail⟩

/-- Detail behaviour where route Rt 2 fails before extraction and every other
route has no link. -/
def c4wDet1 : String → RouteEnv :=
  fun n => if n = "Rt 2" then RouteEnv.failBefore else RouteEnv.noLink

/-- Detail behaviour differing from c4wDet1 only at route Rt 2. -/
def c4wDet2 : String → RouteEnv :=
  fun n => if n = "Rt 2" then RouteEnv.detailPage [] false else RouteEnv.noLink

/-- Environment with one clean incomplete asset, used to exercise the final
output invariant of claim C2. -/
def c2Env : ScrapeEnv :=
  ⟨true, [[], [], [], [], [], [], ["", "Rt 9", "", "", "1"]],
    fun _ => RouteEnv.detailPage [["h", "h", "h"], ["A-7", "Cafe", "Missing"]] true⟩

/-- Run of claim C8 in which the scraper construction raises, as every run
against the staged sources does: InventoryConfirmationScraper(headless=...)
reaches the inherited Selenium SeedBrowser.__init__, which accepts no
headless keyword. -/
def c8CexEnv : WorkflowEnv :=
  ⟨StepOut.raised (PyExc.exc "TypeError: unexpected keyword argument headless"),
    StepOut.ok true, StepOut.ok [], StepOut.ok "f"⟩

/-! Helper lemmas. -/

/-- Inversion for a successful discovery run: the returned route data is the
map of per-route processing over the scanned selection. -/
theorem getIncompleteRoutes_ok {env : ScrapeEnv} {d : String} {rd : List RouteInfo}
    (h : getIncompleteRoutes env d = Except.ok rd) :
    rd = (routesWithMissing env.summaryRows).map (processRoute env.detail d) := by
  unfold getIncompleteRoutes at h
  by_cases hn : env.navOk = false
  · rw [if_pos hn] at h; cases h
  · rw [if_neg hn] at h; cases h; rfl

/-- Every asset record produced by the extraction loop passed the keyword
filter on its stored identifier. -/
theorem extractAssetRow_keyword_free {cells : List String} {a : ScrapedAsset}
    (h : extractAssetRow cells = some a) :
    EXCLUDE_KEYWORDS.any (fun k => strContains a.asset_id k) = false := by
  unfold extractAssetRow at h
  by_cases h3 : 3 ≤ cells.length
  · rw [if_pos h3] at h
    simp at h
    obtain ⟨hfree, hst, heq⟩ := h
    rw [← heq]
    simpa using hfree
  · rw [if_neg h3] at h; cases h
/-- Claim-side and code-side exclusion checks agree on a bare identifier with
an empty type text: appending the empty type is neutral and the keywords are
already uppercase. -/
theorem specExcluded_eq_code (x : String) :
    specExcludedCombined x "" =
      EXCLUDE_KEYWORDS.any (fun k => strContains (pyUpper x) k) := by
  unfold specExcludedCombined ciContains
  rw [String.append_empty]
  rfl

/-! Claim theorems. -/

/-- C1: for every row scanned by route discovery that has at least the
required five cells, the route is selected if and only if the stripped
route-name cell starts with Rt and the stripped missing-count cell parses as
an integer strictly greater than zero; selection is a pure function of those
two cell values. -/
theorem C1_route_selection (cells : List String) (h : 5 ≤ cells.length) :
    ((routeFromRow cells).isSome = true ↔
      (pyStartsWith (pyStrip (cells.getD 1 "")) "Rt" = true ∧
        ∃ n, parseCount (pyStrip (cells.getD 4 "")) = some n ∧ 0 < n))
    ∧ (∀ cells2 : List String, 5 ≤ cells2.length →
        cells.getD 1 "" = cells2.getD 1 "" → cells.getD 4 "" = cells2.getD 4 "" →
        routeFromRow cells = routeFromRow cells2) := by
  constructor
  · simp only [routeFromRow, parseCount, if_pos h]
    by_cases hrt : pyStartsWith (pyStrip (cells.getD 1 "")) "Rt" = true <;>
      by_cases hd : pyIsDigit (pyStrip (cells.getD 4 "")) = true <;>
        by_cases hpos : 0 < digitsToNat (pyStrip (cells.getD 4 "")) <;>
          simp_all
  · intro cells2 h2 e1 e4
    unfold routeFromRow
    rw [if_pos h, if_pos h2, e1, e4]

/-- C1 witness: the row with name cell Rt 305 and count cell 4 is selected. -/
theorem C1_route_selection_witness :
    5 ≤ (["", "Rt 305", "", "", "4"] : List String).length
    ∧ (routeFromRow ["", "Rt 305", "", "", "4"]).isSome = true :=
  ⟨by decide,
    (C1_route_selection ["", "Rt 305", "", "", "4"] (by decide)).1.mpr
      ⟨by decide, 4, by decide, by decide⟩⟩

/-- C2: among detail rows with at least three cells whose status text passes
the incomplete-status check, the asset is kept if and only if its combined
identifier plus type text (the type column of the final output is always
empty) contains no exclusion keyword case-insensitively; and every record of
the final Excel output is keyword-free, so an identifier such as FF-102 never
appears regardless of status. -/
theorem C2_exclusion_filter :
    (∀ cells : List String, 3 ≤ cells.length →
        statusMatches (pyLower (pyStrip (cells.getD 2 ""))) = true →
        ((extractAssetRow cells).isSome = true ↔
          specExcludedCombined (pyStrip (cells.getD 0 "")) "" = false))
    ∧ (∀ (env : ScrapeEnv) (d : String) (rd : List RouteInfo) (rec : OutRec),
        getIncompleteRoutes env d = Except.ok rd → rec ∈ excelAllAssets rd →
        EXCLUDE_KEYWORDS.any (fun k => strContains rec.asset_id k) = false ∧
          rec.asset_id ≠ "FF-102") := by
  constructor
  · intro cells h3 hst
    rw [specExcluded_eq_code]
    simp only [extractAssetRow, if_pos h3]
    by_cases hexc :
        EXCLUDE_KEYWORDS.any
          (fun x => strContains (pyUpper (pyStrip (cells.getD 0 ""))) x) = true <;>
      simp_all
  · intro env d rd rec hok hmem
    rw [getIncompleteRoutes_ok hok] at hmem
    unfold excelAllAssets at hmem
    rw [List.mem_flatMap] at hmem
    obtain ⟨r, hr, hrec⟩ := hmem
    rw [List.mem_map] at hrec
    obtain ⟨a, ha, rfl⟩ := hrec
    rw [List.mem_map] at hr
    obtain ⟨p, hp, rfl⟩ := hr
    have hfree : EXCLUDE_KEYWORDS.any (fun k => strContains a.asset_id k) = false := by
      unfold processRoute at ha
      rcases hdet : env.detail p.1 with _ | _ | ⟨rows, goBackOk⟩ <;> rw [hdet] at ha
      · simp at ha
      · simp at ha
      · simp only at ha
        unfold extractAssets at ha
        rw [List.mem_filterMap] at ha
        obtain ⟨cells, hcells, hsome⟩ := ha
        exact extractAssetRow_keyword_free hsome
    refine ⟨hfree, ?_⟩
    intro hid
    simp only at hid
    rw [hid] at hfree
    have : strContains "FF-102" "FF" = true := by decide
    simp [EXCLUDE_KEYWORDS, this] at hfree

/-- C2 witness: a keyword-free candidate row is kept, and the asset A-7 of a
successful run is keyword-free in the Excel output. -/
theorem C2_exclusion_filter_witness :
    (extractAssetRow ["A-1", "Lobby", "Missing"]).isSome = true
    ∧ (EXCLUDE_KEYWORDS.any
        (fun k =>
          strContains (OutRec.mk "A-7" "Cafe" "" "" "YES/NO").asset_id k) = false
      ∧ (OutRec.mk "A-7" "Cafe" "" "" "YES/NO").asset_id ≠ "FF-102") :=
  ⟨(C2_exclusion_filter.1 ["A-1", "Lobby", "Missing"] (by decide) (by decide)).mpr
      (by decide),
    C2_exclusion_filter.2 c2Env "d"
      [⟨"Rt 9", "d", "Incomplete", 1, [⟨"A-7", "Cafe", "missing"⟩]⟩]
      ⟨"A-7", "Cafe", "", "", "YES/NO"⟩ rfl (by decide)⟩

/-- C3: the extraction loop collects a row via a free-text substring search
for missing, incomplete or not done in the lowered status text, so a row
whose status cell holds the literal unset placeholder YES/NO is never
collected, while a free-text Missing Inventory row is. -/
theorem C3_free_text_status_match :
    extractAssetRow ["A-1", "Lobby", "YES/NO"] = none
    ∧ statusMatches (pyLower (pyStrip "YES/NO")) = false
    ∧ extractAssetRow ["A-1", "Lobby", "Missing Inventory"] =
        some ⟨"A-1", "Lobby", "missing inventory"⟩
    ∧ statusMatches "missing inventory" = true := by
  refine ⟨by decide, by decide, by decide, by decide⟩

/-- C4 counterexample: in the run of c4Env the only route raises during
go_back after its assets were extracted, and its result has status Error with
a nonempty asset list, contradicting the claim that an exception always
leaves an empty asset list. -/
theorem C4_error_keeps_assets_cex :
    getIncompleteRoutes c4Env "2024-06-11" =
      Except.ok [⟨"Rt 1", "2024-06-11", "Error", 2, [⟨"A-1", "Lobby", "missing"⟩]⟩]
    ∧ (RouteInfo.mk "Rt 1" "2024-06-11" "Error" 2
        [⟨"A-1", "Lobby", "missing"⟩]).incomplete_assets ≠ [] :=
  ⟨rfl, by decide⟩

/-- C4 amended: a route whose processing raises gets status Error, with an
empty asset list when the failure precedes extraction and with the already
extracted assets when only the final go_back raises; the result of a route
depends only on that route's own detail behaviour; and a successful run
processes every discovered route. -/
theorem C4_per_route_isolation :
    (∀ (det : String → RouteEnv) (d name : String) (cnt : Nat),
        det name = RouteEnv.failBefore →
        processRoute det d (name, cnt) = ⟨name, d, "Error", cnt, []⟩)
    ∧ (∀ (det : String → RouteEnv) (d name : String) (cnt : Nat)
        (rows : List (List String)),
        det name = RouteEnv.detailPage rows false →
        processRoute det d (name, cnt) = ⟨name, d, "Error", cnt, extractAssets rows⟩)
    ∧ (∀ (det det2 : String → RouteEnv) (d : String) (p : String × Nat),
        det p.1 = det2 p.1 → processRoute det d p = processRoute det2 d p)
    ∧ (∀ (env : ScrapeEnv) (d : String), env.navOk = true →
        getIncompleteRoutes env d =
          Except.ok
            ((routesWithMissing env.summaryRows).map (processRoute env.detail d))) := by
  refine ⟨?_, ?_, ?_, ?_⟩
  · intro det d name cnt hdet
    unfold processRoute
    rw [hdet]
  · intro det d name cnt rows hdet
    unfold processRoute
    rw [hdet]
    rfl
  · intro det det2 d p hdet
    unfold processRoute
    rw [hdet]
  · intro env d hn
    simp [getIncompleteRoutes, hn]

/-- C4 witness: with c4wDet1, route Rt 2 fails before extraction and yields
Error with no assets, while route Rt 1 gets the same result under c4wDet2,
which differs from c4wDet1 only at Rt 2. -/
theorem C4_per_route_isolation_witness :
    processRoute c4wDet1 "2024-06-11" ("Rt 2", 1) =
      ⟨"Rt 2", "2024-06-11", "Error", 1, []⟩
    ∧ processRoute c4wDet1 "2024-06-11" ("Rt 1", 2) =
        processRoute c4wDet2 "2024-06-11" ("Rt 1", 2) :=
  ⟨C4_per_route_isolation.1 c4wDet1 "2024-06-11" "Rt 2" 1 (by decide),
    C4_per_route_isolation.2.2.1 c4wDet1 c4wDet2 "2024-06-11" ("Rt 1", 2) (by decide)⟩

/-- C5: the target date is the current date minus 3 days on a Monday and
minus 1 day on any other weekday, formatted YYYY-MM-DD; in particular
Wednesday 2024-06-12 yields 2024-06-11 and Monday 2024-06-10 yields
2024-06-07. -/
theorem C5_target_date :
    (∀ dt : Date, pyWeekday dt = 0 →
        get_previous_business_day dt = fmtDate (subDays dt 3))
    ∧ (∀ dt : Date, pyWeekday dt ≠ 0 →
        get_previous_business_day dt = fmtDate (subDays dt 1))
    ∧ get_previous_business_day ⟨2024, 6, 12⟩ = "2024-06-11"
    ∧ get_previous_business_day ⟨2024, 6, 10⟩ = "2024-06-07" := by
  refine ⟨?_, ?_, by decide, by decide⟩
  · intro dt h
    unfold get_previous_business_day
    rw [if_pos h]
  · intro dt h
    unfold get_previous_business_day
    rw [if_neg h]

/-- C5 witness: the Monday and non-Monday rules applied at 2024-06-10 and
2024-06-12. -/
theorem C5_target_date_witness :
    pyWeekday ⟨2024, 6, 10⟩ = 0
    ∧ get_previous_business_day ⟨2024, 6, 10⟩ = fmtDate (subDays ⟨2024, 6, 10⟩ 3)
    ∧ pyWeekday ⟨2024, 6, 12⟩ ≠ 0
    ∧ get_previous_business_day ⟨2024, 6, 12⟩ = fmtDate (subDays ⟨2024, 6, 12⟩ 1) :=
  ⟨by decide, C5_target_date.1 ⟨2024, 6, 10⟩ (by decide), by decide,
    C5_target_date.2.1 ⟨2024, 6, 12⟩ (by decide)⟩

/-- C6: at the input where the browser still shows the login URL after the
fixed wait (the analogue of the success-URL wait timing out), login returns
False instead of raising an AuthenticationError, and the post-submit wait is
the fixed eight-second sleep. -/
theorem C6_login_timeout_returns_false :
    seedLogin ⟨false, true, false, "https://mycantaloupe.com/login"⟩ = Except.ok false
    ∧ LOGIN_SLEEP_SECONDS = 8 :=
  ⟨rfl, rfl⟩

/-- C7: the summary URL is built with the hardcoded cluster segment cs4 and
is a function of the target date alone, with no dependence on any post-login
URL. -/
theorem C7_hardcoded_cluster :
    routesSummaryUrl "2024-06-11" =
      "https://mycantaloupe.com/cs4/Reports/RoutesSummary?date=2024-06-11"
    ∧ strContains (routesSummaryUrl "2024-06-11") "/cs4/" = true :=
  ⟨rfl, by decide⟩

/-- C8 counterexample: a run whose scraper construction raises is an
exception outcome of the workflow in which the finally clause guard skips
the cleanup entirely, zero invocations instead of the claimed exactly one,
for both workflow variants. -/
theorem C8_constructor_skips_cleanup_cex :
    (runWorkflow c8CexEnv).2.count WEvent.cleanupCall = 0
    ∧ (runDailyWorkflow c8CexEnv).2.count WEvent.cleanupCall = 0
    ∧ (runWorkflow c8CexEnv).1 =
        RunOutcome.returned
          (RunRet.failureDict "TypeError: unexpected keyword argument headless") :=
  ⟨rfl, rfl, rfl⟩

/-- C8 amended: for every run outcome in which the scraper construction
succeeds, normal completion, caught exception or propagating keyboard
interrupt, the cleanup routine is invoked exactly once by the finally
clause; when the construction call itself raises, scraper is still None and
the guarded finally invokes no cleanup at all. -/
theorem C8_teardown_guarded (env : WorkflowEnv) :
    (env.construct = StepOut.ok () →
      (runWorkflow env).2.count WEvent.cleanupCall = 1
      ∧ (runDailyWorkflow env).2.count WEvent.cleanupCall = 1)
    ∧ (∀ e : PyExc, env.construct = StepOut.raised e →
      (runWorkflow env).2.count WEvent.cleanupCall = 0
      ∧ (runDailyWorkflow env).2.count WEvent.cleanupCall = 0) := by
  obtain ⟨cons, sl, sc, se⟩ := env
  constructor
  · intro h
    cases h
    refine ⟨?_, ?_⟩ <;>
    · cases sl with
      | raised e => rfl
      | ok b =>
        cases b
        · rfl
        · cases sc with
          | raised e => rfl
          | ok rd =>
            cases rd with
            | nil => rfl
            | cons a tl =>
              cases se with
              | raised e => rfl
              | ok f => rfl
  · intro e h
    cases h
    exact ⟨rfl, rfl⟩

/-- C8 witness: cleanup runs exactly once when construction succeeds and the
next step raises a keyboard interrupt, and zero times in the
construction-failure run. -/
theorem C8_teardown_guarded_witness :
    (runWorkflow
      ⟨StepOut.ok (), StepOut.raised PyExc.interrupt, StepOut.ok [],
        StepOut.ok "f"⟩).2.count WEvent.cleanupCall = 1
    ∧ (runWorkflow c8CexEnv).2.count WEvent.cleanupCall = 0 :=
  ⟨((C8_teardown_guarded
      ⟨StepOut.ok (), StepOut.raised PyExc.interrupt, StepOut.ok [],
        StepOut.ok "f"⟩).1 rfl).1,
    ((C8_teardown_guarded c8CexEnv).2
      (PyExc.exc "TypeError: unexpected keyword argument headless") rfl).1⟩

/-- C9: when construction and login succeed and discovery yields zero
routes, both workflow variants return the failure dictionary with the No
route data found error rather than an empty success. -/
theorem C9_no_route_data_failure (env : WorkflowEnv)
    (h0 : env.construct = StepOut.ok ())
    (h1 : env.setupLogin = StepOut.ok true) (h2 : env.scrape = StepOut.ok []) :
    (runWorkflow env).1 = RunOutcome.returned (RunRet.failureDict "No route data found")
    ∧ (runDailyWorkflow env).1 =
        RunOutcome.returned (RunRet.failureDict "No route data found") := by
  have hb : tryBodyEvents env =
      (StepOut.raised (PyExc.exc "No route data found"),
        [WEvent.stepRun, WEvent.stepRun, WEvent.stepRun], true) := by
    unfold tryBodyEvents
    rw [h0, h1, h2]
    rfl
  have hbd : tryBodyEventsDaily env =
      (StepOut.raised (PyExc.exc "No route data found"),
        [WEvent.stepRun, WEvent.stepRun, WEvent.stepRun], true) := by
    unfold tryBodyEventsDaily
    rw [h0, h1, h2]
    rfl
  constructor
  · unfold runWorkflow
    rw [hb]
  · unfold runDailyWorkflow
    rw [hbd]

/-- C9 witness: a concrete run with successful construction and login and an
empty route list returns the No route data found failure. -/
theorem C9_no_route_data_failure_witness :
    (runWorkflow ⟨StepOut.ok (), StepOut.ok true, StepOut.ok [], StepOut.ok "f"⟩).1 =
      RunOutcome.returned (RunRet.failureDict "No route data found") :=
  (C9_no_route_data_failure
    ⟨StepOut.ok (), StepOut.ok true, StepOut.ok [], StepOut.ok "f"⟩ rfl rfl rfl).1

/-- C10: when no login form is detected within the bounded wait after
navigating to the portal root, login returns True; login never raises, and
credential rejection (a post-submit URL that does not indicate a logged-in
session) is reported by returning False. -/
theorem C10_login_result_codes :
    (∀ (sf : Bool) (u : String), seedLogin ⟨false, false, sf, u⟩ = Except.ok true)
    ∧ (∀ env : LoginEnv, ∃ b : Bool, seedLogin env = Except.ok b)
    ∧ (∀ env : LoginEnv, env.navFails = false → env.formAppears = true →
        env.submitFails = false → urlIndicatesLoggedIn env.urlAfterLogin = false →
        seedLogin env = Except.ok false) := by
  refine ⟨?_, ?_, ?_⟩
  · intro sf u
    rfl
  · intro env
    unfold seedLogin
    split
    · exact ⟨false, rfl⟩
    · split
      · exact ⟨true, rfl⟩
      · split
        · exact ⟨false, rfl⟩
        · split
          · exact ⟨true, rfl⟩
          · exact ⟨false, rfl⟩
  · intro env h1 h2 h3 h4
    unfold seedLogin
    simp [h1, h2, h3, h4]

/-- C10 witness: the no-form path returns True and a still-on-login URL after
submit returns False. -/
theorem C10_login_result_codes_witness :
    seedLogin ⟨false, false, false, "https://mycantaloupe.com/cs4/Home"⟩ = Except.ok true
    ∧ seedLogin ⟨false, true, false, "https://mycantaloupe.com/Account/Login"⟩ =
        Except.ok false :=
  ⟨C10_login_result_codes.1 false "https://mycantaloupe.com/cs4/Home",
    C10_login_result_codes.2.2 ⟨false, true, false, "https://mycantaloupe.com/Account/Login"⟩
      rfl rfl rfl (by decide)⟩

end Monumator
